import Mathlib

/-!
Verification of the payment-confirmation webhook handler
`c2b_mpesa_confirmation_resource` from `src/main.py` of the
featherweight-mpesaCallback service.

The handler receives an untyped JSON payload (the M-Pesa STK callback
envelope), extracts nested fields by direct key access inside a single
`try ... except KeyError` block, branches on `ResultCode == 0`, persists a
receipt record to a key-value store under `receipt:<CheckoutRequestID>`,
and either returns a confirmation object or raises an HTTP 400 error.

We model JSON values, Python-style subscripting (raising `KeyError` on a
missing dict key and `TypeError` on a non-subscriptable value), Python
equality against numbers and strings, the `next(...)` generator idiom
(raising `StopIteration` when nothing matches), and the store as a list of
writes applied to a string-keyed map.
-/

/-- A JSON value, as parsed from the request body. Numbers are modelled as
rationals: Python compares `int` and `float` by numeric value, and the
handler performs no arithmetic on them. -/
inductive Json where
  | null
  | bool (b : Bool)
  | num (q : ℚ)
  | str (s : String)
  | arr (items : List Json)
  | obj (fields : List (String × Json))

/-- A Python exception relevant to the handler. -/
inductive PyErr where
  | keyError (key : String)
  | typeError
  | stopIteration
deriving DecidableEq

/-- Python subscripting `v[key]` with a string key: looks the key up in a
dict (raising `KeyError key` when absent), and raises `TypeError` on any
non-dict value (`None`, numbers, booleans, strings, lists are not
subscriptable by a string key). -/
def Json.getItem : Json → String → Except PyErr Json
  | .obj fields, key =>
      match fields.lookup key with
      | some v => .ok v
      | none => .error (.keyError key)
  | _, _ => .error .typeError

/-- Python `==` between a JSON value and a numeric literal: numbers compare
by value, booleans compare as the numbers 0 and 1 (`False == 0` is `True`
in Python), every other type is unequal. -/
def Json.pyEqNum : Json → ℚ → Bool
  | .num x, q => decide (x = q)
  | .bool true, q => decide (q = 1)
  | .bool false, q => decide (q = 0)
  | _, _ => false

/-- Python `==` between a JSON value and a string literal: only strings
compare equal to strings. -/
def Json.pyEqStr : Json → String → Bool
  | .str t, s => decide (t = s)
  | _, _ => false

/-- Python `str()` as used by the f-string `f'receipt:{CheckoutRequestID}'`.
`CheckoutRequestID` is a string in every callback envelope; the rendering
of non-string values is approximated (the theorems below only instantiate
string ids). -/
def Json.pyStr : Json → String
  | .str s => s
  | .num q => toString q
  | .bool true => "True"
  | .bool false => "False"
  | .null => "None"
  | .arr _ => "<list>"
  | .obj _ => "<dict>"

/-- Python iteration `for item in v`: lists yield their elements, strings
yield their characters as one-character strings, dicts yield their keys;
`None`, numbers and booleans are not iterable (`TypeError`). -/
def Json.asIter : Json → Except PyErr (List Json)
  | .arr items => .ok items
  | .str s => .ok (s.toList.map fun c => Json.str (String.mk [c]))
  | .obj fields => .ok (fields.map fun kv => Json.str kv.1)
  | _ => .error .typeError

/-- Model of `next(item["Value"] for item in metadata if item["Name"] == name)`
(src/main.py lines 140-143): scan in sequence order, return the `Value` of
the first item whose `Name` equals `name`, raise `StopIteration` when no
item matches, and propagate any `KeyError`/`TypeError` raised by the item
subscripts themselves. -/
def findValue : List Json → String → Except PyErr Json
  | [], _ => .error .stopIteration
  | item :: rest, name =>
      match item.getItem "Name" with
      | .error e => .error e
      | .ok v => if v.pyEqStr name then item.getItem "Value" else findValue rest name

/-- The top-of-handler field extraction (src/main.py lines 131-136):
`Body`, `stkCallback`, then `MerchantRequestID`, `CheckoutRequestID`,
`ResultCode`, `ResultDesc`, in that order. Returns the `stkCallback`
object together with the four fields. -/
def extractTop (c2b_mpesa_request : Json) :
    Except PyErr (Json × Json × Json × Json × Json) :=
  match c2b_mpesa_request.getItem "Body" with
  | .error e => .error e
  | .ok body =>
  match body.getItem "stkCallback" with
  | .error e => .error e
  | .ok stk_callback =>
  match stk_callback.getItem "MerchantRequestID" with
  | .error e => .error e
  | .ok m =>
  match stk_callback.getItem "CheckoutRequestID" with
  | .error e => .error e
  | .ok c =>
  match stk_callback.getItem "ResultCode" with
  | .error e => .error e
  | .ok rc =>
  match stk_callback.getItem "ResultDesc" with
  | .error e => .error e
  | .ok rd => .ok (stk_callback, m, c, rc, rd)

/-- The success-branch metadata extraction (src/main.py lines 138-143):
`stk_callback["CallbackMetadata"]["Item"]` is iterated four times to find
`Amount`, `MpesaReceiptNumber`, `TransactionDate`, `PhoneNumber`, in that
order. -/
def extractMetadata (stk_callback : Json) :
    Except PyErr (Json × Json × Json × Json) :=
  match stk_callback.getItem "CallbackMetadata" with
  | .error e => .error e
  | .ok cbm =>
  match cbm.getItem "Item" with
  | .error e => .error e
  | .ok itemField =>
  match itemField.asIter with
  | .error e => .error e
  | .ok callbackMetadata =>
  match findValue callbackMetadata "Amount" with
  | .error e => .error e
  | .ok amount =>
  match findValue callbackMetadata "MpesaReceiptNumber" with
  | .error e => .error e
  | .ok mpesaReceiptNumber =>
  match findValue callbackMetadata "TransactionDate" with
  | .error e => .error e
  | .ok transactionDate =>
  match findValue callbackMetadata "PhoneNumber" with
  | .error e => .error e
  | .ok phoneNumber => .ok (amount, mpesaReceiptNumber, transactionDate, phoneNumber)

/-- What the handler hands back to the HTTP layer: a `PaymentConfirmation`
response body, a raised `HTTPException` (FastAPI turns it into a response
with that status code and detail), or an exception that escaped the
`except KeyError` clause (FastAPI surfaces it as a 500 Internal Server
Error). -/
inductive HandlerResult where
  | confirmation (receipt_id : Json) (success : Bool) (errors : Json)
  | httpError (statusCode : ℕ) (detail : Json)
  | unhandled (e : PyErr)

/-- One invocation's outcome: the result surfaced to the caller and the
ordered list of key-value store writes (`red.set`) it performed. -/
structure RunResult where
  response : HandlerResult
  writes : List (String × Json)

/-- The body of the `try` block (src/main.py lines 131-179). The
`HTTPException` raised on the `ResultCode != 0` branch is not a `KeyError`,
so it is returned as a result, not as a `PyErr`. -/
def tryBlock (c2b_mpesa_request : Json) : Except PyErr RunResult :=
  match extractTop c2b_mpesa_request with
  | .error e => .error e
  | .ok (stk_callback, merchantRequestID, checkoutRequestID, resultCode, resultDesc) =>
    if resultCode.pyEqNum 0 then
      match extractMetadata stk_callback with
      | .error e => .error e
      | .ok (amount, mpesaReceiptNumber, transactionDate, phoneNumber) =>
        let transc : Json := .obj
          [("MerchantRequestID", merchantRequestID),
           ("CheckoutRequestID", checkoutRequestID),
           ("ResultCode", resultCode),
           ("ResultDesc", resultDesc),
           ("Amount", amount),
           ("MpesaReceiptNumber", mpesaReceiptNumber),
           ("TransactionDate", transactionDate),
           ("PhoneNumber", phoneNumber)]
        .ok ⟨.confirmation mpesaReceiptNumber (resultCode.pyEqNum 0) resultDesc,
             [("receipt:" ++ checkoutRequestID.pyStr, transc)]⟩
    else
      let transc : Json := .obj
        [("MerchantRequestID", merchantRequestID),
         ("CheckoutRequestID", checkoutRequestID),
         ("ResultCode", resultCode),
         ("ResultDesc", resultDesc)]
      .ok ⟨.httpError 400 resultDesc,
           [("receipt:" ++ checkoutRequestID.pyStr, transc)]⟩

/-- The whole endpoint (src/main.py lines 123-182): run the `try` block;
`except KeyError as e` turns a `KeyError` into
`HTTPException(400, detail=f"Missing required field: {e}")` — note that
Python's `str` of a `KeyError` is the `repr` of the key, so the detail
carries the key name wrapped in single quotes. Any other exception
(`TypeError`, `StopIteration`) escapes the handler. No store write happens
on any exception path, because `red.set` runs only after all extractions
succeed. -/
def c2b_mpesa_confirmation_resource (c2b_mpesa_request : Json) : RunResult :=
  match tryBlock c2b_mpesa_request with
  | .ok r => r
  | .error (.keyError key) =>
      ⟨.httpError 400 (.str ("Missing required field: \x27" ++ key ++ "\x27")), []⟩
  | .error e => ⟨.unhandled e, []⟩

/-- The key-value store: a map from string keys to JSON records. The store
holds `json.dumps` of the record; we model values at the record level since
the handler never transforms them after building `transc`. -/
def Store := String → Option Json

/-- `SET key value`: overwrite semantics. -/
def Store.set (s : Store) (key : String) (v : Json) : Store :=
  fun k => if k = key then some v else s k

/-- Apply an invocation's writes to the store, in order. -/
def applyWrites (s : Store) : List (String × Json) → Store
  | [] => s
  | (key, v) :: rest => applyWrites (s.set key v) rest

/-- Is the result an HTTP error response in the 400 class? -/
def HandlerResult.is400 : HandlerResult → Bool
  | .httpError code _ => 400 ≤ code && code < 500
  | _ => false

/-- The store with no keys set. -/
def Store.empty : Store := fun _ => none

/-- A metadata item `{"Name": "Amount", "Value": 100}`. -/
def amountItem : Json := .obj [("Name", .str "Amount"), ("Value", .num 100)]

/-- A success-shaped `stkCallback` object with all four metadata names. -/
def successStk : Json := .obj
  [("MerchantRequestID", .str "m1"),
   ("CheckoutRequestID", .str "c1"),
   ("ResultCode", .num 0),
   ("ResultDesc", .str "Processed successfully."),
   ("CallbackMetadata", .obj [("Item", .arr
     [amountItem,
      .obj [("Name", .str "MpesaReceiptNumber"), ("Value", .str "NLJ7RT61SV")],
      .obj [("Name", .str "TransactionDate"), ("Value", .num 20191219102115)],
      .obj [("Name", .str "PhoneNumber"), ("Value", .num 254708374149)]])])]

/-- A fully valid success-shaped callback envelope. -/
def successBody : Json := .obj [("Body", .obj [("stkCallback", successStk)])]

/-- A success-coded `stkCallback` whose `CallbackMetadata.Item` carries only
the `Amount` entry: `MpesaReceiptNumber`, `TransactionDate` and
`PhoneNumber` are absent. -/
def partialMetaStk : Json := .obj
  [("MerchantRequestID", .str "m1"),
   ("CheckoutRequestID", .str "c1"),
   ("ResultCode", .num 0),
   ("ResultDesc", .str "ok"),
   ("CallbackMetadata", .obj [("Item", .arr [amountItem])])]

/-- Envelope wrapping `partialMetaStk`. -/
def partialMetaBody : Json := .obj [("Body", .obj [("stkCallback", partialMetaStk)])]

/-- A failure envelope: `ResultCode = 1`, `ResultDesc = "Insufficient funds"`. -/
def failureBody1 : Json := .obj [("Body", .obj [("stkCallback", .obj
  [("MerchantRequestID", .str "m1"),
   ("CheckoutRequestID", .str "c1"),
   ("ResultCode", .num 1),
   ("ResultDesc", .str "Insufficient funds")])])]

/-- A second failure envelope with the same `CheckoutRequestID` as
`failureBody1` but a different code and description. -/
def failureBody2 : Json := .obj [("Body", .obj [("stkCallback", .obj
  [("MerchantRequestID", .str "m2"),
   ("CheckoutRequestID", .str "c1"),
   ("ResultCode", .num 1032),
   ("ResultDesc", .str "Request cancelled by user")])])]

/-- An envelope whose `ResultCode` is the JSON boolean `false`: in Python,
`False == 0` is `True`, so the handler takes the success path on it. -/
def falseRCStk : Json := .obj
  [("MerchantRequestID", .str "m1"),
   ("CheckoutRequestID", .str "c1"),
   ("ResultCode", .bool false),
   ("ResultDesc", .str "ok"),
   ("CallbackMetadata", .obj [("Item", .arr
     [amountItem,
      .obj [("Name", .str "MpesaReceiptNumber"), ("Value", .str "R9")],
      .obj [("Name", .str "TransactionDate"), ("Value", .num 20191219102115)],
      .obj [("Name", .str "PhoneNumber"), ("Value", .num 254708374149)]])])]

/-- Envelope wrapping `falseRCStk`. -/
def falseRCBody : Json := .obj [("Body", .obj [("stkCallback", falseRCStk)])]

/-- An envelope whose `ResultCode` is the string `"0"`: in Python,
`"0" == 0` is `False`, so the handler takes the failure path on it. -/
def strZeroStk : Json := .obj
  [("MerchantRequestID", .str "m1"),
   ("CheckoutRequestID", .str "c1"),
   ("ResultCode", .str "0"),
   ("ResultDesc", .str "weird")]

/-- Envelope wrapping `strZeroStk`. -/
def strZeroBody : Json := .obj [("Body", .obj [("stkCallback", strZeroStk)])]

/-- `stkCallback` fields with `ResultCode` absent. -/
def missingRCFields : List (String × Json) :=
  [("MerchantRequestID", .str "m1"),
   ("CheckoutRequestID", .str "c1"),
   ("ResultDesc", .str "x")]

/-- The two-entry metadata list with a duplicated `Amount` name: first
occurrence carries 50, second carries 70. -/
def dupAmountFirst : Json := .obj [("Name", .str "Amount"), ("Value", .num 50)]

/-- The later duplicate `Amount` entry. -/
def dupAmountSecond : Json := .obj [("Name", .str "Amount"), ("Value", .num 70)]

/-- Stepping lemma: once the six top-level fields extract successfully, the
`try` block is the branch on `ResultCode == 0`. -/
lemma tryBlock_ok (p stk mrid crid rc rd : Json)
    (htop : extractTop p = .ok (stk, mrid, crid, rc, rd)) :
    tryBlock p =
      if rc.pyEqNum 0 then
        match extractMetadata stk with
        | .error e => .error e
        | .ok (amount, mpesaReceiptNumber, transactionDate, phoneNumber) =>
          .ok ⟨.confirmation mpesaReceiptNumber (rc.pyEqNum 0) rd,
               [("receipt:" ++ crid.pyStr, Json.obj
                 [("MerchantRequestID", mrid),
                  ("CheckoutRequestID", crid),
                  ("ResultCode", rc),
                  ("ResultDesc", rd),
                  ("Amount", amount),
                  ("MpesaReceiptNumber", mpesaReceiptNumber),
                  ("TransactionDate", transactionDate),
                  ("PhoneNumber", phoneNumber)])]⟩
      else
        .ok ⟨.httpError 400 rd,
             [("receipt:" ++ crid.pyStr, Json.obj
               [("MerchantRequestID", mrid),
                ("CheckoutRequestID", crid),
                ("ResultCode", rc),
                ("ResultDesc", rd)])]⟩ := by
  unfold tryBlock
  rw [htop]

/-- Stepping lemma: a `try` block that returns normally is the handler's
result. -/
lemma c2b_of_tryBlock_ok (p : Json) (r : RunResult) (h : tryBlock p = .ok r) :
    c2b_mpesa_confirmation_resource p = r := by
  unfold c2b_mpesa_confirmation_resource
  rw [h]

/-- Unfolding lemma for `findValue` on a cons cell whose head has a `Name`. -/
lemma findValue_cons_name (i : Json) (rest : List Json) (n : String) (s : Json)
    (hs : i.getItem "Name" = .ok s) :
    findValue (i :: rest) n =
      if s.pyEqStr n then i.getItem "Value" else findValue rest n := by
  show (match i.getItem "Name" with
        | .error e => Except.error e
        | .ok v => if v.pyEqStr n then i.getItem "Value" else findValue rest n) = _
  rw [hs]

/-- When every item carries both a `Name` and a `Value`, a `findValue` scan
either succeeds or ends in `StopIteration` — it cannot raise `KeyError`. -/
lemma findValue_total (items : List Json) (n : String)
    (h : ∀ i ∈ items, (∃ s, i.getItem "Name" = .ok s) ∧ ∃ w, i.getItem "Value" = .ok w) :
    findValue items n = .error .stopIteration ∨ ∃ v, findValue items n = .ok v := by
  induction items with
  | nil => exact Or.inl rfl
  | cons i rest ih =>
    obtain ⟨⟨s, hs⟩, ⟨w, hw⟩⟩ := h i (by simp)
    rw [findValue_cons_name i rest n s hs]
    by_cases hm : s.pyEqStr n = true
    · rw [if_pos hm, hw]
      exact Or.inr ⟨w, rfl⟩
    · rw [if_neg hm]
      exact ih fun j hj => h j (by simp [hj])

/-- When no item's `Name` matches, the scan raises `StopIteration`. -/
lemma findValue_not_found (items : List Json) (n : String)
    (hname : ∀ i ∈ items, ∃ s, i.getItem "Name" = .ok s)
    (hnomatch : ∀ i ∈ items, ∀ s, i.getItem "Name" = .ok s → s.pyEqStr n = false) :
    findValue items n = .error .stopIteration := by
  induction items with
  | nil => rfl
  | cons i rest ih =>
    obtain ⟨s, hs⟩ := hname i (by simp)
    rw [findValue_cons_name i rest n s hs, if_neg]
    · exact ih (fun j hj => hname j (by simp [hj]))
        (fun j hj => hnomatch j (by simp [hj]))
    · simp [hnomatch i (by simp) s hs]

/-- C1 (counterexample): on a `ResultCode = 0` envelope whose
`CallbackMetadata.Item` lacks an entry named `MpesaReceiptNumber` (here the
list carries only the `Amount` item), the handler does NOT fail with a
400-class MissingField response: `next(...)` raises `StopIteration`, which
`except KeyError` does not catch, so the exception escapes (a 500-class
server error). No record is written. -/
theorem c1_counterexample :
    extractTop partialMetaBody = .ok (partialMetaStk, .str "m1", .str "c1", .num 0, .str "ok") ∧
    (c2b_mpesa_confirmation_resource partialMetaBody).response = .unhandled .stopIteration ∧
    (c2b_mpesa_confirmation_resource partialMetaBody).response.is400 = false ∧
    (c2b_mpesa_confirmation_resource partialMetaBody).writes = [] :=
  ⟨rfl, rfl, rfl, rfl⟩

/-- C1 (amended): for every callback envelope with `ResultCode == 0` whose
`CallbackMetadata.Item` entries each carry a `Name` and a `Value` but lack
an entry named one of `Amount`, `MpesaReceiptNumber`, `TransactionDate`,
`PhoneNumber`, the webhook handler raises an uncaught `StopIteration`
(not a `KeyError`, hence not a 400-class MissingField response but a
500-class server error), and no record is written to the store. -/
theorem c1_missing_metadata_unhandled
    (p stk mrid crid rc rd cbm itemField : Json) (items : List Json)
    (htop : extractTop p = .ok (stk, mrid, crid, rc, rd))
    (hrc : rc = .num 0)
    (hcbm : stk.getItem "CallbackMetadata" = .ok cbm)
    (hitem : cbm.getItem "Item" = .ok itemField)
    (hiter : itemField.asIter = .ok items)
    (hgood : ∀ i ∈ items, (∃ s, i.getItem "Name" = .ok s) ∧ ∃ w, i.getItem "Value" = .ok w)
    (hmiss : ∃ n ∈ (["Amount", "MpesaReceiptNumber", "TransactionDate",
        "PhoneNumber"] : List String),
        ∀ i ∈ items, ∀ s, i.getItem "Name" = .ok s → s.pyEqStr n = false) :
    c2b_mpesa_confirmation_resource p = ⟨.unhandled .stopIteration, []⟩ := by
  obtain ⟨n, hn, hnomatch⟩ := hmiss
  have hnames : ∀ i ∈ items, ∃ s, i.getItem "Name" = .ok s := fun i hi => (hgood i hi).1
  have hstop : findValue items n = .error .stopIteration :=
    findValue_not_found items n hnames hnomatch
  have hmeta : extractMetadata stk = .error .stopIteration := by
    rcases findValue_total items "Amount" hgood with hA | ⟨va, hA⟩
    · simp [extractMetadata, hcbm, hitem, hiter, hA]
    rcases findValue_total items "MpesaReceiptNumber" hgood with hB | ⟨vb, hB⟩
    · simp [extractMetadata, hcbm, hitem, hiter, hA, hB]
    rcases findValue_total items "TransactionDate" hgood with hC | ⟨vc, hC⟩
    · simp [extractMetadata, hcbm, hitem, hiter, hA, hB, hC]
    rcases findValue_total items "PhoneNumber" hgood with hD | ⟨vd, hD⟩
    · simp [extractMetadata, hcbm, hitem, hiter, hA, hB, hC, hD]
    exfalso
    simp only [List.mem_cons, List.not_mem_nil, or_false] at hn
    rcases hn with rfl | rfl | rfl | rfl
    · rw [hA] at hstop; exact Except.noConfusion hstop
    · rw [hB] at hstop; exact Except.noConfusion hstop
    · rw [hC] at hstop; exact Except.noConfusion hstop
    · rw [hD] at hstop; exact Except.noConfusion hstop
  have hpy : rc.pyEqNum 0 = true := by subst hrc; simp [Json.pyEqNum]
  have htb := tryBlock_ok p stk mrid crid rc rd htop
  rw [if_pos hpy, hmeta] at htb
  have htb2 : tryBlock p = .error PyErr.stopIteration := htb
  unfold c2b_mpesa_confirmation_resource
  rw [htb2]

/-- C1 (witness): the amended theorem applied to the concrete envelope whose
metadata carries only the `Amount` item. -/
theorem c1_missing_metadata_unhandled_witness :
    c2b_mpesa_confirmation_resource partialMetaBody = ⟨.unhandled .stopIteration, []⟩ :=
  c1_missing_metadata_unhandled partialMetaBody partialMetaStk (.str "m1") (.str "c1")
    (.num 0) (.str "ok") (.obj [("Item", .arr [amountItem])]) (.arr [amountItem])
    [amountItem] rfl rfl rfl rfl rfl
    (by
      intro i hi
      simp only [List.mem_singleton] at hi
      subst hi
      exact ⟨⟨.str "Amount", rfl⟩, ⟨.num 100, rfl⟩⟩)
    ⟨"MpesaReceiptNumber", by simp, by
      intro i hi s hs
      simp only [List.mem_singleton] at hi
      subst hi
      rw [show amountItem.getItem "Name" = Except.ok (Json.str "Amount") from rfl] at hs
      cases hs
      rfl⟩

/-- C2: for every well-formed envelope with integer `ResultCode ≠ 0`, the
handler writes the failure-shaped record (the four top fields, no metadata)
to the store at `receipt:<CheckoutRequestID>` and returns a 400 error whose
detail equals `ResultDesc`. -/
theorem c2_failure_path_persists_and_400
    (p stk mrid crid rc rd : Json) (r : ℚ)
    (htop : extractTop p = .ok (stk, mrid, crid, rc, rd))
    (hrc : rc = .num r) (hr : r ≠ 0) :
    c2b_mpesa_confirmation_resource p =
      ⟨.httpError 400 rd,
       [("receipt:" ++ crid.pyStr, Json.obj
         [("MerchantRequestID", mrid),
          ("CheckoutRequestID", crid),
          ("ResultCode", rc),
          ("ResultDesc", rd)])]⟩ ∧
    ∀ store : Store,
      applyWrites store (c2b_mpesa_confirmation_resource p).writes
          ("receipt:" ++ crid.pyStr)
        = some (Json.obj
         [("MerchantRequestID", mrid),
          ("CheckoutRequestID", crid),
          ("ResultCode", rc),
          ("ResultDesc", rd)]) := by
  have hpy : rc.pyEqNum 0 = false := by
    subst hrc
    simp [Json.pyEqNum, hr]
  have htb := tryBlock_ok p stk mrid crid rc rd htop
  rw [if_neg (by simp [hpy])] at htb
  have hc2b := c2b_of_tryBlock_ok p _ htb
  refine ⟨hc2b, fun store => ?_⟩
  rw [hc2b]
  simp [applyWrites, Store.set]

/-- C2 (witness): `ResultCode = 1`, `ResultDesc = "Insufficient funds"`
stores the failure record under `receipt:c1` and yields a 400 with detail
`"Insufficient funds"`. -/
theorem c2_failure_path_persists_and_400_witness :
    c2b_mpesa_confirmation_resource failureBody1 =
      ⟨.httpError 400 (.str "Insufficient funds"),
       [("receipt:c1", Json.obj
         [("MerchantRequestID", .str "m1"),
          ("CheckoutRequestID", .str "c1"),
          ("ResultCode", .num 1),
          ("ResultDesc", .str "Insufficient funds")])]⟩ ∧
    applyWrites Store.empty (c2b_mpesa_confirmation_resource failureBody1).writes
        "receipt:c1"
      = some (Json.obj
        [("MerchantRequestID", .str "m1"),
         ("CheckoutRequestID", .str "c1"),
         ("ResultCode", .num 1),
         ("ResultDesc", .str "Insufficient funds")]) := by
  have h := c2_failure_path_persists_and_400 failureBody1
    (.obj [("MerchantRequestID", .str "m1"),
           ("CheckoutRequestID", .str "c1"),
           ("ResultCode", .num 1),
           ("ResultDesc", .str "Insufficient funds")])
    (.str "m1") (.str "c1") (.num 1) (.str "Insufficient funds") 1 rfl rfl one_ne_zero
  exact ⟨h.1, h.2 Store.empty⟩

/-- C3: for every valid success-shaped envelope (`ResultCode = 0`, all four
metadata names extractable), the record persisted at
`receipt:<CheckoutRequestID>` carries `Amount`, `MpesaReceiptNumber`,
`TransactionDate` and `PhoneNumber` exactly equal to the values extracted
from `CallbackMetadata.Item` — no transformation, no precision loss. -/
theorem c3_success_record_roundtrip
    (p stk mrid crid rc rd amount rn td pn : Json)
    (htop : extractTop p = .ok (stk, mrid, crid, rc, rd))
    (hrc : rc = .num 0)
    (hmeta : extractMetadata stk = .ok (amount, rn, td, pn)) :
    (c2b_mpesa_confirmation_resource p).writes =
      [("receipt:" ++ crid.pyStr, Json.obj
        [("MerchantRequestID", mrid),
         ("CheckoutRequestID", crid),
         ("ResultCode", rc),
         ("ResultDesc", rd),
         ("Amount", amount),
         ("MpesaReceiptNumber", rn),
         ("TransactionDate", td),
         ("PhoneNumber", pn)])] ∧
    ∀ store : Store, ∃ record : Json,
      applyWrites store (c2b_mpesa_confirmation_resource p).writes
          ("receipt:" ++ crid.pyStr) = some record ∧
      record.getItem "Amount" = .ok amount ∧
      record.getItem "MpesaReceiptNumber" = .ok rn ∧
      record.getItem "TransactionDate" = .ok td ∧
      record.getItem "PhoneNumber" = .ok pn := by
  have hpy : rc.pyEqNum 0 = true := by
    subst hrc
    simp [Json.pyEqNum]
  have htb := tryBlock_ok p stk mrid crid rc rd htop
  rw [if_pos hpy, hmeta, hpy] at htb
  have hc2b := c2b_of_tryBlock_ok p _ htb
  rw [hc2b]
  refine ⟨rfl, fun store => ?_⟩
  refine ⟨Json.obj
        [("MerchantRequestID", mrid),
         ("CheckoutRequestID", crid),
         ("ResultCode", rc),
         ("ResultDesc", rd),
         ("Amount", amount),
         ("MpesaReceiptNumber", rn),
         ("TransactionDate", td),
         ("PhoneNumber", pn)], ?_, ?_, ?_, ?_, ?_⟩
  · simp [applyWrites, Store.set]
  all_goals simp [Json.getItem, List.lookup]

/-- C3 (witness): the round-trip theorem applied to the concrete valid
success envelope. -/
theorem c3_success_record_roundtrip_witness :
    (c2b_mpesa_confirmation_resource successBody).writes =
      [("receipt:c1", Json.obj
        [("MerchantRequestID", .str "m1"),
         ("CheckoutRequestID", .str "c1"),
         ("ResultCode", .num 0),
         ("ResultDesc", .str "Processed successfully."),
         ("Amount", .num 100),
         ("MpesaReceiptNumber", .str "NLJ7RT61SV"),
         ("TransactionDate", .num 20191219102115),
         ("PhoneNumber", .num 254708374149)])] ∧
    ∃ record : Json,
      applyWrites Store.empty (c2b_mpesa_confirmation_resource successBody).writes
          "receipt:c1" = some record ∧
      record.getItem "Amount" = .ok (.num 100) ∧
      record.getItem "MpesaReceiptNumber" = .ok (.str "NLJ7RT61SV") ∧
      record.getItem "TransactionDate" = .ok (.num 20191219102115) ∧
      record.getItem "PhoneNumber" = .ok (.num 254708374149) := by
  have h := c3_success_record_roundtrip successBody successStk (.str "m1") (.str "c1")
    (.num 0) (.str "Processed successfully.") (.num 100) (.str "NLJ7RT61SV")
    (.num 20191219102115) (.num 254708374149) rfl rfl rfl
  exact ⟨h.1, h.2 Store.empty⟩

/-- C4: a payload missing any required top-level field (`Body`,
`stkCallback`, `MerchantRequestID`, `CheckoutRequestID`, `ResultCode`,
`ResultDesc`) gets a 400 response whose detail names the missing key
(`Missing required field: <name>`, with the key rendered in Python
`KeyError` quotes), and no key is written to the store. One conjunct per
required field, each assuming the fields accessed before it are present. -/
theorem c4_missing_top_field_400_no_write :
    (∀ fields : List (String × Json), fields.lookup "Body" = none →
      c2b_mpesa_confirmation_resource (.obj fields) =
        ⟨.httpError 400 (.str "Missing required field: \x27Body\x27"), []⟩)
    ∧ (∀ fields bodyFields : List (String × Json),
        fields.lookup "Body" = some (.obj bodyFields) →
        bodyFields.lookup "stkCallback" = none →
        c2b_mpesa_confirmation_resource (.obj fields) =
          ⟨.httpError 400 (.str "Missing required field: \x27stkCallback\x27"), []⟩)
    ∧ (∀ fields bodyFields stkFields : List (String × Json),
        fields.lookup "Body" = some (.obj bodyFields) →
        bodyFields.lookup "stkCallback" = some (.obj stkFields) →
        stkFields.lookup "MerchantRequestID" = none →
        c2b_mpesa_confirmation_resource (.obj fields) =
          ⟨.httpError 400 (.str "Missing required field: \x27MerchantRequestID\x27"), []⟩)
    ∧ (∀ fields bodyFields stkFields : List (String × Json), ∀ mv : Json,
        fields.lookup "Body" = some (.obj bodyFields) →
        bodyFields.lookup "stkCallback" = some (.obj stkFields) →
        stkFields.lookup "MerchantRequestID" = some mv →
        stkFields.lookup "CheckoutRequestID" = none →
        c2b_mpesa_confirmation_resource (.obj fields) =
          ⟨.httpError 400 (.str "Missing required field: \x27CheckoutRequestID\x27"), []⟩)
    ∧ (∀ fields bodyFields stkFields : List (String × Json), ∀ mv cv : Json,
        fields.lookup "Body" = some (.obj bodyFields) →
        bodyFields.lookup "stkCallback" = some (.obj stkFields) →
        stkFields.lookup "MerchantRequestID" = some mv →
        stkFields.lookup "CheckoutRequestID" = some cv →
        stkFields.lookup "ResultCode" = none →
        c2b_mpesa_confirmation_resource (.obj fields) =
          ⟨.httpError 400 (.str "Missing required field: \x27ResultCode\x27"), []⟩)
    ∧ (∀ fields bodyFields stkFields : List (String × Json), ∀ mv cv rcv : Json,
        fields.lookup "Body" = some (.obj bodyFields) →
        bodyFields.lookup "stkCallback" = some (.obj stkFields) →
        stkFields.lookup "MerchantRequestID" = some mv →
        stkFields.lookup "CheckoutRequestID" = some cv →
        stkFields.lookup "ResultCode" = some rcv →
        stkFields.lookup "ResultDesc" = none →
        c2b_mpesa_confirmation_resource (.obj fields) =
          ⟨.httpError 400 (.str "Missing required field: \x27ResultDesc\x27"), []⟩) := by
  refine ⟨?_, ?_, ?_, ?_, ?_, ?_⟩
  · intro fields hb
    simp [c2b_mpesa_confirmation_resource, tryBlock, extractTop, Json.getItem, hb]
  · intro fields bodyFields hb hs
    simp [c2b_mpesa_confirmation_resource, tryBlock, extractTop, Json.getItem, hb, hs]
  · intro fields bodyFields stkFields hb hs hm
    simp [c2b_mpesa_confirmation_resource, tryBlock, extractTop, Json.getItem, hb, hs, hm]
  · intro fields bodyFields stkFields mv hb hs hm hc
    simp [c2b_mpesa_confirmation_resource, tryBlock, extractTop, Json.getItem, hb, hs, hm, hc]
  · intro fields bodyFields stkFields mv cv hb hs hm hc hrc
    simp [c2b_mpesa_confirmation_resource, tryBlock, extractTop, Json.getItem,
      hb, hs, hm, hc, hrc]
  · intro fields bodyFields stkFields mv cv rcv hb hs hm hc hrc hrd
    simp [c2b_mpesa_confirmation_resource, tryBlock, extractTop, Json.getItem,
      hb, hs, hm, hc, hrc, hrd]

/-- C4 (witness): omitting `ResultCode` yields a 400 naming `ResultCode`
and an empty write list. -/
theorem c4_missing_top_field_400_no_write_witness :
    c2b_mpesa_confirmation_resource
        (.obj [("Body", .obj [("stkCallback", .obj missingRCFields)])]) =
      ⟨.httpError 400 (.str "Missing required field: \x27ResultCode\x27"), []⟩ :=
  c4_missing_top_field_400_no_write.2.2.2.2.1
    [("Body", .obj [("stkCallback", .obj missingRCFields)])]
    [("stkCallback", .obj missingRCFields)]
    missingRCFields (.str "m1") (.str "c1") rfl rfl rfl rfl rfl

/-- C5: first-match semantics of the metadata extraction. When the item
list is `l1 ++ i :: l2` with no match in `l1`, a first match at `i`, and a
later duplicate entry with the same `Name` somewhere in `l2`, the extracted
value is `i`'s `Value` — the first occurrence in sequence order wins. -/
theorem c5_first_match_extraction (l1 l2 : List Json) (i : Json) (n : String) (v : Json)
    (hbefore : ∀ j ∈ l1, ∃ t, j.getItem "Name" = .ok t ∧ t.pyEqStr n = false)
    (hname : i.getItem "Name" = .ok (.str n))
    (hval : i.getItem "Value" = .ok v)
    (_hdup : ∃ j ∈ l2, ∃ t, j.getItem "Name" = .ok t ∧ t.pyEqStr n = true) :
    findValue (l1 ++ i :: l2) n = .ok v := by
  induction l1 with
  | nil =>
    rw [List.nil_append, findValue_cons_name i l2 n (.str n) hname,
      if_pos (by simp [Json.pyEqStr]), hval]
  | cons j rest ih =>
    obtain ⟨t, ht, htne⟩ := hbefore j (by simp)
    rw [List.cons_append, findValue_cons_name j (rest ++ i :: l2) n t ht,
      if_neg (by simp [htne])]
    exact ih fun k hk => hbefore k (by simp [hk])

/-- C5 (witness): two entries named `Amount` (values 50 then 70); the scan
extracts 50, the first in sequence order. -/
theorem c5_first_match_extraction_witness :
    findValue [dupAmountFirst, dupAmountSecond] "Amount" = .ok (.num 50) :=
  c5_first_match_extraction [] [dupAmountSecond] dupAmountFirst "Amount" (.num 50)
    (fun j hj => absurd hj (List.not_mem_nil j)) rfl rfl
    ⟨dupAmountSecond, List.mem_singleton_self _, .str "Amount", rfl, rfl⟩

/-- C6: last-write-wins. If two invocations both write single records under
the same key (the same `CheckoutRequestID`), then after applying the first
invocation's writes and then the second's, the record retrievable under
that key is the second one's. -/
theorem c6_last_write_wins (p1 p2 : Json) (key : String) (v1 v2 : Json) (store : Store)
    (h1 : (c2b_mpesa_confirmation_resource p1).writes = [(key, v1)])
    (h2 : (c2b_mpesa_confirmation_resource p2).writes = [(key, v2)]) :
    applyWrites (applyWrites store (c2b_mpesa_confirmation_resource p1).writes)
        (c2b_mpesa_confirmation_resource p2).writes key = some v2 := by
  rw [h1, h2]
  simp [applyWrites, Store.set]

/-- C6 (witness): two failure callbacks with `CheckoutRequestID = "c1"`;
afterwards only the second record is retrievable under `receipt:c1`. -/
theorem c6_last_write_wins_witness :
    applyWrites (applyWrites Store.empty
        (c2b_mpesa_confirmation_resource failureBody1).writes)
        (c2b_mpesa_confirmation_resource failureBody2).writes "receipt:c1" =
      some (Json.obj
        [("MerchantRequestID", .str "m2"),
         ("CheckoutRequestID", .str "c1"),
         ("ResultCode", .num 1032),
         ("ResultDesc", .str "Request cancelled by user")]) :=
  c6_last_write_wins failureBody1 failureBody2 "receipt:c1"
    (Json.obj
      [("MerchantRequestID", .str "m1"),
       ("CheckoutRequestID", .str "c1"),
       ("ResultCode", .num 1),
       ("ResultDesc", .str "Insufficient funds")])
    (Json.obj
      [("MerchantRequestID", .str "m2"),
       ("CheckoutRequestID", .str "c1"),
       ("ResultCode", .num 1032),
       ("ResultDesc", .str "Request cancelled by user")])
    Store.empty rfl rfl

/-- C7: for every valid success-shaped envelope, the handler returns (not
as an error) the confirmation object whose `receipt_id` is the extracted
`MpesaReceiptNumber`, whose `success` is `true`, and whose `errors` equals
`ResultDesc`. -/
theorem c7_success_confirmation
    (p stk mrid crid rc rd amount rn td pn : Json)
    (htop : extractTop p = .ok (stk, mrid, crid, rc, rd))
    (hrc : rc = .num 0)
    (hmeta : extractMetadata stk = .ok (amount, rn, td, pn)) :
    (c2b_mpesa_confirmation_resource p).response = .confirmation rn true rd := by
  have hpy : rc.pyEqNum 0 = true := by
    subst hrc
    simp [Json.pyEqNum]
  have htb := tryBlock_ok p stk mrid crid rc rd htop
  rw [if_pos hpy, hmeta, hpy] at htb
  rw [c2b_of_tryBlock_ok p _ htb]

/-- C7 (witness): on the concrete valid success envelope the response is the
confirmation with `receipt_id = "NLJ7RT61SV"`, `success = true`, and
`errors` equal to the `ResultDesc`. -/
theorem c7_success_confirmation_witness :
    (c2b_mpesa_confirmation_resource successBody).response =
      .confirmation (.str "NLJ7RT61SV") true (.str "Processed successfully.") :=
  c7_success_confirmation successBody successStk (.str "m1") (.str "c1")
    (.num 0) (.str "Processed successfully.") (.num 100) (.str "NLJ7RT61SV")
    (.num 20191219102115) (.num 254708374149) rfl rfl rfl

/-- C8: write-count and frame property of the store writes, split by path.
First conjunct: whenever the invocation takes the success path or the
result-code-failure path (top fields extracted, and either
`ResultCode != 0` or the metadata extraction succeeds), it performs
EXACTLY ONE write, whose key is `receipt:<CheckoutRequestID>` for the
envelope's own `CheckoutRequestID`, and every other store key is left
unchanged. Second and third conjuncts: on every other path (a top-field
extraction error, or `ResultCode == 0` with a metadata extraction error)
it performs zero writes and the store is untouched. -/
theorem c8_write_frame (p : Json) (store : Store) :
    (∀ stk mrid crid rc rd : Json,
      extractTop p = .ok (stk, mrid, crid, rc, rd) →
      (rc.pyEqNum 0 = false ∨ ∃ vals, extractMetadata stk = .ok vals) →
      ∃ record : Json,
        (c2b_mpesa_confirmation_resource p).writes =
          [("receipt:" ++ crid.pyStr, record)] ∧
        applyWrites store (c2b_mpesa_confirmation_resource p).writes
          ("receipt:" ++ crid.pyStr) = some record ∧
        ∀ k, k ≠ "receipt:" ++ crid.pyStr →
          applyWrites store (c2b_mpesa_confirmation_resource p).writes k = store k)
    ∧ (∀ e : PyErr,
      extractTop p = .error e →
      (c2b_mpesa_confirmation_resource p).writes = [] ∧
      applyWrites store (c2b_mpesa_confirmation_resource p).writes = store)
    ∧ (∀ stk mrid crid rc rd : Json, ∀ e : PyErr,
      extractTop p = .ok (stk, mrid, crid, rc, rd) →
      rc.pyEqNum 0 = true →
      extractMetadata stk = .error e →
      (c2b_mpesa_confirmation_resource p).writes = [] ∧
      applyWrites store (c2b_mpesa_confirmation_resource p).writes = store) := by
  refine ⟨?_, ?_, ?_⟩
  · intro stk mrid crid rc rd htop hpath
    by_cases hpy : rc.pyEqNum 0 = true
    · rcases hpath with hf | ⟨⟨amount, rn, td, pn⟩, hmeta⟩
      · rw [hpy] at hf
        exact absurd hf (by simp)
      · have htb := tryBlock_ok p stk mrid crid rc rd htop
        rw [if_pos hpy, hmeta, hpy] at htb
        have hc2b := c2b_of_tryBlock_ok p _ htb
        refine ⟨_, by rw [hc2b], ?_, fun k hk => ?_⟩
        · rw [hc2b]
          simp [applyWrites, Store.set]
        · rw [hc2b]
          simp [applyWrites, Store.set, hk]
    · have htb := tryBlock_ok p stk mrid crid rc rd htop
      rw [if_neg hpy] at htb
      have hc2b := c2b_of_tryBlock_ok p _ htb
      refine ⟨_, by rw [hc2b], ?_, fun k hk => ?_⟩
      · rw [hc2b]
        simp [applyWrites, Store.set]
      · rw [hc2b]
        simp [applyWrites, Store.set, hk]
  · intro e htop
    have htb : tryBlock p = .error e := by unfold tryBlock; rw [htop]
    unfold c2b_mpesa_confirmation_resource
    rw [htb]
    cases e with
    | keyError key => exact ⟨rfl, rfl⟩
    | typeError => exact ⟨rfl, rfl⟩
    | stopIteration => exact ⟨rfl, rfl⟩
  · intro stk mrid crid rc rd e htop hpy hmeta
    have htb := tryBlock_ok p stk mrid crid rc rd htop
    rw [if_pos hpy, hmeta] at htb
    have htb2 : tryBlock p = .error e := htb
    unfold c2b_mpesa_confirmation_resource
    rw [htb2]
    cases e with
    | keyError key => exact ⟨rfl, rfl⟩
    | typeError => exact ⟨rfl, rfl⟩
    | stopIteration => exact ⟨rfl, rfl⟩

/-- C8 (witness): the result-code-failure invocation `failureBody1` is
forced into the exactly-one-write case: its single write lands at
`receipt:c1` and an unrelated key (`receipt:c2`) is untouched. -/
theorem c8_write_frame_witness :
    (c2b_mpesa_confirmation_resource failureBody1).writes =
      [("receipt:c1", Json.obj
        [("MerchantRequestID", .str "m1"),
         ("CheckoutRequestID", .str "c1"),
         ("ResultCode", .num 1),
         ("ResultDesc", .str "Insufficient funds")])] ∧
    applyWrites Store.empty (c2b_mpesa_confirmation_resource failureBody1).writes
        "receipt:c1"
      = some (Json.obj
        [("MerchantRequestID", .str "m1"),
         ("CheckoutRequestID", .str "c1"),
         ("ResultCode", .num 1),
         ("ResultDesc", .str "Insufficient funds")]) ∧
    applyWrites Store.empty (c2b_mpesa_confirmation_resource failureBody1).writes
        "receipt:c2"
      = Store.empty "receipt:c2" := by
  have h := (c8_write_frame failureBody1 Store.empty).1
    (.obj [("MerchantRequestID", .str "m1"),
           ("CheckoutRequestID", .str "c1"),
           ("ResultCode", .num 1),
           ("ResultDesc", .str "Insufficient funds")])
    (.str "m1") (.str "c1") (.num 1) (.str "Insufficient funds")
    rfl (Or.inl rfl)
  obtain ⟨record, hw, hget, hframe⟩ := h
  have hconc : (c2b_mpesa_confirmation_resource failureBody1).writes =
      [("receipt:c1", Json.obj
        [("MerchantRequestID", .str "m1"),
         ("CheckoutRequestID", .str "c1"),
         ("ResultCode", .num 1),
         ("ResultDesc", .str "Insufficient funds")])] := rfl
  rw [hconc] at hw
  simp only [List.cons.injEq, Prod.mk.injEq, and_true, true_and] at hw
  obtain ⟨-, hrec⟩ := hw
  subst hrec
  exact ⟨hconc, hget, hframe "receipt:c2" (by decide)⟩

/-- C9: for every request body that is not a JSON object (absent body
defaulting to `null`, an array, a string, a number, a boolean), the first
subscript raises `TypeError`, which `except KeyError` does not catch: the
caller gets an unhandled server error (500-class), not a 400 MissingField
response, and no record is written. -/
theorem c9_non_object_payload_unhandled (p : Json)
    (h : ∀ fields, p ≠ .obj fields) :
    c2b_mpesa_confirmation_resource p = ⟨.unhandled .typeError, []⟩ := by
  cases p with
  | obj fields => exact absurd rfl (h fields)
  | null => rfl
  | bool b => rfl
  | num q => rfl
  | str s => rfl
  | arr items => rfl

/-- C9 (witness): the absent body (`null`) gives the unhandled `TypeError`
and writes nothing. -/
theorem c9_non_object_payload_unhandled_witness :
    c2b_mpesa_confirmation_resource .null = ⟨.unhandled .typeError, []⟩ :=
  c9_non_object_payload_unhandled .null fun _ h => Json.noConfusion h

/-- C10 (counterexample): `ResultCode` equal to the JSON boolean `false` is
a value other than the integer 0, yet the handler takes the SUCCESS path on
it (Python `False == 0` is `True`): the response is the confirmation
object, not a 400-class error, and the persisted record is success-shaped
(all eight fields), not failure-shaped. -/
theorem c10_counterexample :
    Json.bool false ≠ Json.num 0 ∧
    (c2b_mpesa_confirmation_resource falseRCBody).response =
      .confirmation (.str "R9") true (.str "ok") ∧
    (c2b_mpesa_confirmation_resource falseRCBody).response.is400 = false ∧
    (c2b_mpesa_confirmation_resource falseRCBody).writes =
      [("receipt:c1", Json.obj
        [("MerchantRequestID", .str "m1"),
         ("CheckoutRequestID", .str "c1"),
         ("ResultCode", .bool false),
         ("ResultDesc", .str "ok"),
         ("Amount", .num 100),
         ("MpesaReceiptNumber", .str "R9"),
         ("TransactionDate", .num 20191219102115),
         ("PhoneNumber", .num 254708374149)])] :=
  ⟨fun h => Json.noConfusion h, rfl, rfl, rfl⟩

/-- C10 (amended): the branch is decided by Python `==` between
`ResultCode` and the integer 0, not by syntactic identity: every value not
numerically equal to 0 — in particular every string, including `"0"` —
takes the failure path (failure record persisted, 400 response with detail
`ResultDesc`), while `False` and numeric `0`/`0.0` compare equal to 0 and
take the success path. -/
theorem c10_python_eq_branch (p stk mrid crid rc rd : Json)
    (htop : extractTop p = .ok (stk, mrid, crid, rc, rd)) :
    (rc.pyEqNum 0 = false →
      c2b_mpesa_confirmation_resource p =
        ⟨.httpError 400 rd,
         [("receipt:" ++ crid.pyStr, Json.obj
           [("MerchantRequestID", mrid),
            ("CheckoutRequestID", crid),
            ("ResultCode", rc),
            ("ResultDesc", rd)])]⟩)
    ∧ (∀ s : String, (Json.str s).pyEqNum 0 = false)
    ∧ (Json.bool false).pyEqNum 0 = true
    ∧ ∀ q : ℚ, ((Json.num q).pyEqNum 0 = true ↔ q = 0) := by
  refine ⟨fun hpy => ?_, fun s => rfl, by simp [Json.pyEqNum],
    fun q => by simp [Json.pyEqNum]⟩
  have htb := tryBlock_ok p stk mrid crid rc rd htop
  rw [if_neg (by simp [hpy])] at htb
  exact c2b_of_tryBlock_ok p _ htb

/-- C10 (witness): `ResultCode = "0"` (the string) takes the failure path:
the failure-shaped record is written and the response is a 400 carrying the
`ResultDesc`. -/
theorem c10_python_eq_branch_witness :
    c2b_mpesa_confirmation_resource strZeroBody =
      ⟨.httpError 400 (.str "weird"),
       [("receipt:c1", Json.obj
         [("MerchantRequestID", .str "m1"),
          ("CheckoutRequestID", .str "c1"),
          ("ResultCode", .str "0"),
          ("ResultDesc", .str "weird")])]⟩ ∧
    (Json.str "0").pyEqNum 0 = false := by
  have h := c10_python_eq_branch strZeroBody strZeroStk (.str "m1") (.str "c1")
    (.str "0") (.str "weird") rfl
  exact ⟨h.1 rfl, h.2.1 "0"⟩
